import Mathlib

/-!
Shallow embedding of the smartnode network-state subsystem.

The definitions below are translated from the Go sources:
  shared/services/state/manager.go   (NetworkStateManager, GetHeadState,
                                      GetLatestFinalizedBeaconBlock)
  the watchtower epoch helper         (epochAt)
  rocketpool/node/collectors/demand-collector.go (OdaoCollector)

Go machine integers (uint64) are modelled as Nat with explicit reduction
modulo 2^64 wherever the Go computation can wrap.  Go RPC calls are
modelled as explicit response values or response functions passed in as
parameters (the remote clients are black boxes).  Go code that can panic
(integer division by zero) is modelled with an explicit panic outcome.
The unbounded backward-scan loop of the finalized-block locator is
modelled with an explicit fuel parameter: the Go loop has no bound, so a
run that consumes all fuel corresponds to the loop still running.
-/

namespace Smartnode

/-- Modulus of Go uint64 arithmetic. -/
def U64 : Nat := 18446744073709551616

/-- Go uint64 addition: wraps modulo 2^64. -/
def u64add (a b : Nat) : Nat := (a + b) % U64

/-- Go uint64 multiplication: wraps modulo 2^64. -/
def u64mul (a b : Nat) : Nat := a * b % U64

/-- Go uint64 subtraction: two's-complement wraparound modulo 2^64. -/
def u64sub (a b : Nat) : Nat := (a % U64 + (U64 - b % U64)) % U64

/-- The uint64 fields of beacon.Eth2Config used by this subsystem
(the Go struct also carries fork-version byte slices, not used here). -/
structure Eth2Config where
  GenesisEpoch : Nat
  GenesisTime : Nat
  SecondsPerSlot : Nat
  SlotsPerEpoch : Nat
  SecondsPerEpoch : Nat
deriving Repr, DecidableEq

/-- The beacon.BeaconHead struct returned by GetBeaconHead. -/
structure BeaconHead where
  Epoch : Nat
  FinalizedEpoch : Nat
  JustifiedEpoch : Nat
  PreviousJustifiedEpoch : Nat
deriving Repr, DecidableEq

/-- Outcome of the finalized-block locator.  The Go method returns
(beacon.BeaconBlock, error); the block payload is kept abstract as `β`
since the locator only passes it through.  `found` carries the number of
missing-slot diagnostics logged on the way (one per skipped slot).
`headError` is the wrapped GetBeaconHead failure, `rpcError` the
GetBeaconBlock failure wrapped with the slot being probed, and
`outOfFuel` marks a run of the unbounded Go loop that is still going
after the given number of iterations. -/
inductive LocateResult (β : Type) where
  | found (block : β) (skips : Nat)
  | headError (msg : String)
  | rpcError (slot : Nat) (msg : String)
  | outOfFuel
deriving Repr, DecidableEq

/-- The backward-scan loop body of GetLatestFinalizedBeaconBlock
(manager.go lines 107-121).  `probe slot` models
bc.GetBeaconBlock(fmt.Sprint(slot)) = (block, exists, err); the Go code
passes the slot as its decimal string, which determines the slot
uniquely, so the model passes the number itself.  On a missing slot the
Go code logs one diagnostic and executes targetSlot-- on a uint64,
which wraps modulo 2^64 at slot 0. -/
def findLatestBlock {β : Type} (probe : Nat → Except String (β × Bool)) :
    Nat → Nat → Nat → LocateResult β
  | 0, _, _ => .outOfFuel
  | fuel + 1, targetSlot, skips =>
    match probe targetSlot with
    | .error e => .rpcError targetSlot e
    | .ok (block, ex) =>
      if ex then .found block skips
      else findLatestBlock probe fuel ((targetSlot + (U64 - 1)) % U64) (skips + 1)

/-- The fields of NetworkStateManager relevant to this model.  The Go
struct additionally holds the config object, the two chain clients and
a logger; the clients are modelled as per-call response parameters and
the logger only produces the skip diagnostics counted in
`LocateResult.found`. -/
structure NetworkStateManager where
  Network : Nat
  ChainID : Nat
  BeaconConfig : Eth2Config
deriving Repr, DecidableEq

/-- NewNetworkStateManager (manager.go lines 31-54): builds the manager,
then performs exactly one bc.GetEth2Config() call, storing the result in
m.BeaconConfig; a fetch failure is returned as the construction error.
The second component of the result is the number of GetEth2Config calls
the constructor performs (the Go body contains a single unconditional
call). -/
def NewNetworkStateManager (network chainID : Nat)
    (getEth2Config : Except String Eth2Config) :
    Except String NetworkStateManager × Nat :=
  match getEth2Config with
  | .error e => (.error e, 1)
  | .ok c => (.ok ⟨network, chainID, c⟩, 1)

/-- GetLatestFinalizedBeaconBlock (manager.go lines 99-122): fetch the
beacon head, compute targetSlot = FinalizedEpoch*SlotsPerEpoch +
(SlotsPerEpoch - 1) in uint64 arithmetic, then scan backward with
`findLatestBlock`.  `getBeaconHead` models bc.GetBeaconHead() and
`getBeaconBlock` models bc.GetBeaconBlock. -/
def GetLatestFinalizedBeaconBlock {β : Type} (m : NetworkStateManager)
    (getBeaconHead : Except String BeaconHead)
    (getBeaconBlock : Nat → Except String (β × Bool)) (fuel : Nat) :
    LocateResult β :=
  match getBeaconHead with
  | .error e => .headError ("error getting Beacon chain head: " ++ e)
  | .ok head =>
    findLatestBlock getBeaconBlock fuel
      (u64add (u64mul head.FinalizedEpoch m.BeaconConfig.SlotsPerEpoch)
        (u64sub m.BeaconConfig.SlotsPerEpoch 1)) 0

/-- Generic outcome of a Go function returning (value, error) whose body
can also panic: `ok` a normal return, `err` a returned error, `panicked`
a run-time panic (here, integer division by zero). -/
inductive GoResult (σ : Type) where
  | ok (val : σ)
  | err (msg : String)
  | panicked
deriving Repr, DecidableEq

/-- Lift a Go (value, error) pair into a GoResult. -/
def liftExcept {σ : Type} : Except String σ → GoResult σ
  | .error e => .err e
  | .ok v => .ok v

/-- Reinterpretation of a Go uint64 value as int64, as performed by the
conversion int64(x): two's-complement, values at or above 2^63 become
negative. -/
def toInt64 (x : Nat) : Int :=
  if x % U64 < 2 ^ 63 then ((x % U64 : Nat) : Int)
  else ((x % U64 : Nat) : Int) - (U64 : Int)

/-- Largest value of Go time.Duration, in nanoseconds (2^63 - 1). -/
def maxDuration : Int := 9223372036854775807

/-- Smallest value of Go time.Duration, in nanoseconds (-2^63). -/
def minDuration : Int := -9223372036854775808

/-- Go time.Time.Sub for two wall-clock times given in whole seconds:
the difference in nanoseconds, saturated to the time.Duration range
(the documented overflow behaviour of Sub). -/
def durationSub (tSec uSec : Int) : Int :=
  let d := (tSec - uSec) * 1000000000
  if d > maxDuration then maxDuration
  else if d < minDuration then minDuration
  else d

/-- Go uint64(d.Seconds()) for a Duration of d nanoseconds.
Duration.Seconds computes float64(d / 1e9) + float64(d % 1e9) / 1e9 and
the uint64 conversion discards the fraction (truncation toward zero),
so for any d in the Duration range the value truncates to the
toward-zero quotient d / 1e9.  For a negative result the Go conversion
is implementation-dependent; this models the linux/amd64 behaviour,
where the truncated value is reinterpreted modulo 2^64 (on arm64 the
conversion saturates to 0 instead — either way no error is raised). -/
def uint64OfDurationSeconds (d : Int) : Nat :=
  ((Int.tdiv d 1000000000) % (U64 : Int)).toNat

/-- The seconds-since-genesis computation of GetHeadState (manager.go
lines 65-67): both uint64 timestamps pass through int64 and time.Unix,
are subtracted as time values, and the resulting Duration's Seconds()
is converted back to uint64. -/
def secondsSinceGenesis (headerTime genesisTime : Nat) : Nat :=
  uint64OfDurationSeconds (durationSub (toInt64 headerTime) (toInt64 genesisTime))

/-- GetHeadState (manager.go lines 57-72): fetch the latest
execution-layer header (modelled by its uint64 timestamp), convert its
timestamp to a beacon slot using the stored BeaconConfig, and delegate
to getState, i.e. CreateNetworkState, at that slot (modelled by the
parameter `createNetworkState`, polymorphic in the snapshot type σ).
The slot division panics if SecondsPerSlot is zero. -/
def GetHeadState {σ : Type} (m : NetworkStateManager)
    (headerByNumber : Except String Nat)
    (createNetworkState : Nat → Except String σ) : GoResult σ :=
  match headerByNumber with
  | .error e => .err ("error getting latest EL block: " ++ e)
  | .ok headerTime =>
    if m.BeaconConfig.SecondsPerSlot = 0 then .panicked
    else
      liftExcept (createNetworkState
        (secondsSinceGenesis headerTime m.BeaconConfig.GenesisTime /
          m.BeaconConfig.SecondsPerSlot))

/-- The watchtower helper epochAt: GenesisEpoch + (time - GenesisTime) /
SecondsPerEpoch, all in uint64 arithmetic.  Go integer division by zero
panics, modelled as `none`. -/
def epochAt (config : Eth2Config) (time : Nat) : Option Nat :=
  if config.SecondsPerEpoch = 0 then none
  else some (u64add config.GenesisEpoch
    (u64sub time config.GenesisTime / config.SecondsPerEpoch))

/-- The four gauges registered by the ODAO collector
(demand-collector.go lines 124-171). -/
inductive OdaoGauge where
  | currentEth1Block
  | pricesBlock
  | effectiveRplStakeBlock
  | latestReportableBlock
deriving Repr, DecidableEq

/-- The fields of state.NetworkDetails read by the ODAO collector. -/
structure NetworkDetails where
  PricesBlock : Nat
  LatestReportablePricesBlock : Nat
deriving Repr, DecidableEq

/-- The fields of state.NetworkState read by the ODAO collector.  The
full snapshot type is built elsewhere in the repository; only the
fields the collector dereferences are modelled. -/
structure NetworkState where
  ElBlockNumber : Nat
  NetworkDetails : NetworkDetails
deriving Repr, DecidableEq

/-- Go float64(x) for a uint64 x: exact below 2^53, otherwise rounded
to the nearest representable float64 (ties to even), which for x below
2^64 is again an integer. -/
def goFloat64OfUint64 (x : Nat) : Nat :=
  if x < 2 ^ 53 then x
  else
    let k := Nat.log2 x + 1 - 53
    let q := x / 2 ^ k
    let r := x % 2 ^ k
    if decide (2 ^ (k - 1) < r) || (decide (r = 2 ^ (k - 1)) && decide (q % 2 = 1))
    then (q + 1) * 2 ^ k
    else q * 2 ^ k

/-- collectImpl_Legacy (demand-collector.go lines 192-250): three
concurrent queries joined by an errgroup; if any returns an error the
collector logs it and emits nothing, otherwise it emits the four gauges
in order.  The prices-block query result is written to both the
prices-block gauge and the effective-RPL-stake-block gauge.  The
latest-reportable block is a big.Int reduced by Uint64().  Emitted
values are the float64 conversions sent to the Prometheus channel,
listed in send order. -/
def OdaoCollector.collectImpl_Legacy (blockNumber : Except String Nat)
    (pricesBlockQuery : Except String Nat)
    (latestReportableQuery : Except String Nat) : List (OdaoGauge × Nat) :=
  match blockNumber, pricesBlockQuery, latestReportableQuery with
  | .ok bn, .ok pb, .ok lrb =>
    [(.currentEth1Block, goFloat64OfUint64 bn),
     (.pricesBlock, goFloat64OfUint64 pb),
     (.effectiveRplStakeBlock, goFloat64OfUint64 pb),
     (.latestReportableBlock, goFloat64OfUint64 (lrb % U64))]
  | _, _, _ => []

/-- collectImpl_Atlas (demand-collector.go lines 253-269): reads every
gauge value from the cached NetworkState; the effective-RPL-stake-block
gauge is assigned the prices-block float. -/
def OdaoCollector.collectImpl_Atlas (state : NetworkState) :
    List (OdaoGauge × Nat) :=
  [(.currentEth1Block, goFloat64OfUint64 state.ElBlockNumber),
   (.pricesBlock, goFloat64OfUint64 state.NetworkDetails.PricesBlock),
   (.effectiveRplStakeBlock, goFloat64OfUint64 state.NetworkDetails.PricesBlock),
   (.latestReportableBlock,
     goFloat64OfUint64 state.NetworkDetails.LatestReportablePricesBlock)]

/-- OdaoCollector.Collect (demand-collector.go lines 182-189):
stateLocker.GetState() returns the cached snapshot pointer or nil,
modelled as an Option; a nil pointer selects the legacy path, a non-nil
pointer the cached-snapshot path. -/
def OdaoCollector.Collect (cachedState : Option NetworkState)
    (blockNumber pricesBlockQuery latestReportableQuery : Except String Nat) :
    List (OdaoGauge × Nat) :=
  match cachedState with
  | none => OdaoCollector.collectImpl_Legacy blockNumber pricesBlockQuery
      latestReportableQuery
  | some st => OdaoCollector.collectImpl_Atlas st

/-- Association lookup of an emitted gauge value. -/
def lookupGauge (metrics : List (OdaoGauge × Nat)) (g : OdaoGauge) :
    Option Nat :=
  (metrics.find? (fun p => decide (p.1 = g))).map Prod.snd

/-! Concrete fixtures used by the end-to-end scenarios of the spec. -/

/-- Beacon config of scenario B: 32 slots per epoch. -/
def cfg32 : Eth2Config := ⟨0, 0, 12, 32, 384⟩

/-- Manager holding the scenario-B config. -/
def mgr32 : NetworkStateManager := ⟨0, 0, cfg32⟩

/-- Beacon head with finalized epoch 3. -/
def head3 : BeaconHead := ⟨3, 3, 3, 3⟩

/-- Probe responses of scenario B: slots 127 and 126 (and every slot
other than 125) empty, slot 125 carries a block. -/
def probe125 : Nat → Except String (Nat × Bool) :=
  fun k => if k = 125 then .ok (125, true) else .ok (0, false)

/-- Probe responses where slot 125 fails with an RPC error and all
higher slots are empty. -/
def probeErr125 : Nat → Except String (Nat × Bool) :=
  fun k => if k = 125 then .error "rpc down" else .ok (0, false)

/-- Probe responses where every slot is reported as empty, without
error. -/
def probeMissing : Nat → Except String (Nat × Bool) :=
  fun _ => .ok (0, false)

/-- Degenerate config with a single slot per epoch, so the scan for
finalized epoch 0 starts at slot 0. -/
def cfg1 : Eth2Config := ⟨0, 0, 12, 1, 12⟩

/-- Manager holding the single-slot-per-epoch config. -/
def mgr1 : NetworkStateManager := ⟨0, 0, cfg1⟩

/-- Beacon head with finalized epoch 0. -/
def head0 : BeaconHead := ⟨0, 0, 0, 0⟩

/-- Beacon config of scenario A: genesis time 1000, 12 seconds per
slot. -/
def cfgA : Eth2Config := ⟨0, 1000, 12, 32, 384⟩

/-- Manager holding the scenario-A config. -/
def mgrA : NetworkStateManager := ⟨0, 0, cfgA⟩

/-- Config whose SecondsPerEpoch is zero (genesis time 0). -/
def cfgZeroEpochSec : Eth2Config := ⟨0, 0, 12, 32, 0⟩

/-- Config whose SecondsPerEpoch is zero, with genesis time 10. -/
def cfgZeroEpochSecLate : Eth2Config := ⟨0, 10, 12, 32, 0⟩

/-! Helper lemmas about the backward scan. -/

/-- Backward scan from the slot d positions above an existing block,
with only empty slots in between: the scan walks down one slot per
step, logging one skip each, and returns the block with d skips
added. -/
lemma findLatestBlock_found {β : Type} (probe : Nat → Except String (β × Bool))
    (b : β) (s : Nat) (hfound : probe s = .ok (b, true)) :
    ∀ d fuel skips : Nat, d < fuel → s + d < U64 →
      (∀ k, s < k → k ≤ s + d → ∃ bk, probe k = .ok (bk, false)) →
      findLatestBlock probe fuel (s + d) skips = .found b (skips + d) := by
  have hU : U64 = 18446744073709551616 := rfl
  intro d
  induction d with
  | zero =>
    intro fuel skips hf _ _
    obtain ⟨f, rfl⟩ : ∃ f, fuel = f + 1 := ⟨fuel - 1, by omega⟩
    simp [findLatestBlock, hfound]
  | succ d ih =>
    intro fuel skips hf hlt hmiss
    obtain ⟨f, rfl⟩ : ∃ f, fuel = f + 1 := ⟨fuel - 1, by omega⟩
    obtain ⟨bk, hbk⟩ := hmiss (s + (d + 1)) (by omega) (le_refl _)
    have hdec : (s + (d + 1) + (U64 - 1)) % U64 = s + d := by
      have h1 : s + (d + 1) + (U64 - 1) = s + d + U64 := by omega
      rw [h1, Nat.add_mod_right]
      exact Nat.mod_eq_of_lt (by omega)
    have hrec := ih f (skips + 1) (by omega) (by omega)
      (fun k hk1 hk2 => hmiss k hk1 (by omega))
    have hsk : skips + 1 + d = skips + (d + 1) := by omega
    simp only [findLatestBlock, hbk, Bool.false_eq_true, if_false]
    rw [hdec, hrec, hsk]

/-- Backward scan from the slot d positions above a slot whose probe
fails, with only empty slots in between: the scan surfaces the RPC
error wrapped with the slot it was probing. -/
lemma findLatestBlock_error {β : Type} (probe : Nat → Except String (β × Bool))
    (msg : String) (s : Nat) (herr : probe s = .error msg) :
    ∀ d fuel skips : Nat, d < fuel → s + d < U64 →
      (∀ k, s < k → k ≤ s + d → ∃ bk, probe k = .ok (bk, false)) →
      findLatestBlock probe fuel (s + d) skips = .rpcError s msg := by
  have hU : U64 = 18446744073709551616 := rfl
  intro d
  induction d with
  | zero =>
    intro fuel skips hf _ _
    obtain ⟨f, rfl⟩ : ∃ f, fuel = f + 1 := ⟨fuel - 1, by omega⟩
    simp [findLatestBlock, herr]
  | succ d ih =>
    intro fuel skips hf hlt hmiss
    obtain ⟨f, rfl⟩ : ∃ f, fuel = f + 1 := ⟨fuel - 1, by omega⟩
    obtain ⟨bk, hbk⟩ := hmiss (s + (d + 1)) (by omega) (le_refl _)
    have hdec : (s + (d + 1) + (U64 - 1)) % U64 = s + d := by
      have h1 : s + (d + 1) + (U64 - 1) = s + d + U64 := by omega
      rw [h1, Nat.add_mod_right]
      exact Nat.mod_eq_of_lt (by omega)
    have hrec := ih f (skips + 1) (by omega) (by omega)
      (fun k hk1 hk2 => hmiss k hk1 (by omega))
    simp only [findLatestBlock, hbk, Bool.false_eq_true, if_false]
    rw [hdec, hrec]

/-- Backward scan over probes that always answer "empty, no error":
the loop only ever consumes fuel, for any starting slot. -/
lemma findLatestBlock_allMissing {β : Type}
    (probe : Nat → Except String (β × Bool))
    (hmiss : ∀ k, ∃ bk : β, probe k = .ok (bk, false)) :
    ∀ fuel t skips : Nat, findLatestBlock probe fuel t skips = .outOfFuel := by
  intro fuel
  induction fuel with
  | zero => intro t skips; rfl
  | succ f ih =>
    intro t skips
    obtain ⟨bk, hbk⟩ := hmiss t
    simp [findLatestBlock, hbk, ih]

/-- Starting slot of the locator scan: for a non-wrapping epoch the
uint64 computation FinalizedEpoch*SlotsPerEpoch + (SlotsPerEpoch - 1)
agrees with the exact value. -/
lemma targetSlot_eq (e spe : Nat) (hspe : 0 < spe) (hspeU : spe < U64)
    (hbound : e * spe + (spe - 1) < U64) :
    u64add (u64mul e spe) (u64sub spe 1) = e * spe + (spe - 1) := by
  have hU : U64 = 18446744073709551616 := rfl
  have hm : u64mul e spe = e * spe := by
    unfold u64mul
    exact Nat.mod_eq_of_lt (by omega)
  have hsub : u64sub spe 1 = spe - 1 := by
    unfold u64sub
    rw [Nat.mod_eq_of_lt hspeU, Nat.mod_eq_of_lt (show 1 < U64 by omega)]
    rw [show spe + (U64 - 1) = spe - 1 + U64 by omega, Nat.add_mod_right]
    exact Nat.mod_eq_of_lt (by omega)
  unfold u64add
  rw [hm, hsub]
  exact Nat.mod_eq_of_lt (by omega)

/-- Claim C1: for a beacon head whose finalized epoch is e and probe
responses in which every GetBeaconBlock call succeeds,
GetLatestFinalizedBeaconBlock starts the scan at
targetSlot = e*SlotsPerEpoch + (SlotsPerEpoch - 1), logs one skip
diagnostic and decrements the slot for every empty slot, and returns
the block of the highest existing slot s together with
targetSlot - s logged skips. -/
theorem locator_C1 {β : Type} (m : NetworkStateManager) (e s : Nat) (b : β)
    (probe : Nat → Except String (β × Bool)) (head : BeaconHead) (fuel : Nat)
    (hspe : 0 < m.BeaconConfig.SlotsPerEpoch)
    (hspeU : m.BeaconConfig.SlotsPerEpoch < U64)
    (hbound : e * m.BeaconConfig.SlotsPerEpoch +
      (m.BeaconConfig.SlotsPerEpoch - 1) < U64)
    (hs : s ≤ e * m.BeaconConfig.SlotsPerEpoch +
      (m.BeaconConfig.SlotsPerEpoch - 1))
    (hfound : probe s = .ok (b, true))
    (hmiss : ∀ k, s < k →
      k ≤ e * m.BeaconConfig.SlotsPerEpoch +
        (m.BeaconConfig.SlotsPerEpoch - 1) →
      ∃ bk, probe k = .ok (bk, false))
    (hhead : head.FinalizedEpoch = e)
    (hfuel : e * m.BeaconConfig.SlotsPerEpoch +
      (m.BeaconConfig.SlotsPerEpoch - 1) - s < fuel) :
    GetLatestFinalizedBeaconBlock m (.ok head) probe fuel =
      .found b (e * m.BeaconConfig.SlotsPerEpoch +
        (m.BeaconConfig.SlotsPerEpoch - 1) - s) := by
  subst hhead
  simp only [GetLatestFinalizedBeaconBlock]
  rw [targetSlot_eq _ _ hspe hspeU hbound]
  have hkey := findLatestBlock_found probe b s hfound
    (head.FinalizedEpoch * m.BeaconConfig.SlotsPerEpoch +
      (m.BeaconConfig.SlotsPerEpoch - 1) - s) fuel 0 hfuel (by omega)
    (fun k hk1 hk2 => hmiss k hk1 (by omega))
  rw [show s + (head.FinalizedEpoch * m.BeaconConfig.SlotsPerEpoch +
      (m.BeaconConfig.SlotsPerEpoch - 1) - s) =
      head.FinalizedEpoch * m.BeaconConfig.SlotsPerEpoch +
        (m.BeaconConfig.SlotsPerEpoch - 1) by omega, Nat.zero_add] at hkey
  exact hkey

/-- Witness for C1, the end-to-end scenario B of the spec: finalized
epoch 3 and 32 slots per epoch give target slot 127; slots 127 and 126
are empty and 125 exists, so the locator returns the block at slot 125
after exactly two skips. -/
theorem locator_C1_witness :
    GetLatestFinalizedBeaconBlock mgr32 (.ok head3) probe125 3 =
      .found 125 2 := by
  have h := locator_C1 (β := Nat) mgr32 3 125 125 probe125 head3 3
    (by decide) (by decide) (by decide) (by decide) rfl
    (by
      intro k hk1 hk2
      refine ⟨0, ?_⟩
      unfold probe125
      rw [if_neg (by omega)])
    rfl (by decide)
  exact h

/-- Claim C2 counterexample: with finalized epoch 0 and one slot per
epoch the scan starts at slot 0; every probe reports the slot as
missing, and after probing slot 0 the code does not report any fatal
inconsistency: it wraps the uint64 slot past 0 and keeps looping, so
the run is still in the loop after its fuel (one probe, and five
probes) is spent, rather than returning an error. -/
theorem locator_C2_counterexample :
    GetLatestFinalizedBeaconBlock mgr1 (.ok head0) probeMissing 1 =
        .outOfFuel ∧
      GetLatestFinalizedBeaconBlock mgr1 (.ok head0) probeMissing 5 =
        .outOfFuel := by
  exact ⟨rfl, rfl⟩

/-- Claim C2 (amended): GetLatestFinalizedBeaconBlock contains no
slot-0 check: whenever a probed slot is missing it decrements the
uint64 target slot (wrapping from 0 to 2^64 - 1) and continues, so on
a probe sequence in which every slot is reported missing without error
the loop never returns — for every amount of fuel the run is still in
the loop, and in particular no error is ever reported. -/
theorem locator_C2_amended {β : Type} (m : NetworkStateManager)
    (probe : Nat → Except String (β × Bool)) (head : BeaconHead) (fuel : Nat)
    (hmiss : ∀ k, ∃ bk, probe k = .ok (bk, false)) :
    GetLatestFinalizedBeaconBlock m (.ok head) probe fuel = .outOfFuel := by
  simp only [GetLatestFinalizedBeaconBlock]
  exact findLatestBlock_allMissing probe hmiss fuel _ 0

/-- Witness for the amended C2: the all-missing probe sequence keeps
the loop running with fuel 3. -/
theorem locator_C2_amended_witness :
    GetLatestFinalizedBeaconBlock mgr1 (.ok head0) probeMissing 3 =
      .outOfFuel :=
  locator_C2_amended mgr1 probeMissing head0 3 (fun _ => ⟨0, rfl⟩)

/-- Claim C3: if the probes of all slots above s are answered "empty"
and the probe of slot s returns an RPC error, the locator immediately
surfaces that error wrapped with slot s — independently of how much
further fuel remains, so no further decrement or probe happens and the
failure is never treated as a missing slot. -/
theorem locator_C3 {β : Type} (m : NetworkStateManager) (e s : Nat)
    (msg : String) (probe : Nat → Except String (β × Bool))
    (head : BeaconHead) (fuel : Nat)
    (hspe : 0 < m.BeaconConfig.SlotsPerEpoch)
    (hspeU : m.BeaconConfig.SlotsPerEpoch < U64)
    (hbound : e * m.BeaconConfig.SlotsPerEpoch +
      (m.BeaconConfig.SlotsPerEpoch - 1) < U64)
    (hs : s ≤ e * m.BeaconConfig.SlotsPerEpoch +
      (m.BeaconConfig.SlotsPerEpoch - 1))
    (herr : probe s = .error msg)
    (hmiss : ∀ k, s < k →
      k ≤ e * m.BeaconConfig.SlotsPerEpoch +
        (m.BeaconConfig.SlotsPerEpoch - 1) →
      ∃ bk, probe k = .ok (bk, false))
    (hhead : head.FinalizedEpoch = e)
    (hfuel : e * m.BeaconConfig.SlotsPerEpoch +
      (m.BeaconConfig.SlotsPerEpoch - 1) - s < fuel) :
    GetLatestFinalizedBeaconBlock m (.ok head) probe fuel =
      .rpcError s msg := by
  subst hhead
  simp only [GetLatestFinalizedBeaconBlock]
  rw [targetSlot_eq _ _ hspe hspeU hbound]
  have hkey := findLatestBlock_error probe msg s herr
    (head.FinalizedEpoch * m.BeaconConfig.SlotsPerEpoch +
      (m.BeaconConfig.SlotsPerEpoch - 1) - s) fuel 0 hfuel (by omega)
    (fun k hk1 hk2 => hmiss k hk1 (by omega))
  rw [show s + (head.FinalizedEpoch * m.BeaconConfig.SlotsPerEpoch +
      (m.BeaconConfig.SlotsPerEpoch - 1) - s) =
      head.FinalizedEpoch * m.BeaconConfig.SlotsPerEpoch +
        (m.BeaconConfig.SlotsPerEpoch - 1) by omega] at hkey
  exact hkey

/-- Witness for C3: slots 127 and 126 empty, the probe of slot 125
fails with an RPC error; the locator aborts with that error wrapped
with slot 125 even though fuel remains. -/
theorem locator_C3_witness :
    GetLatestFinalizedBeaconBlock mgr32 (.ok head3) probeErr125 10 =
      .rpcError 125 "rpc down" := by
  have h := locator_C3 (β := Nat) mgr32 3 125 "rpc down" probeErr125 head3 10
    (by decide) (by decide) (by decide) (by decide) rfl
    (by
      intro k hk1 hk2
      refine ⟨0, ?_⟩
      unfold probeErr125
      rw [if_neg (by omega)])
    rfl (by decide)
  exact h

/-- Seconds-since-genesis computation in the range where the Go chain
of conversions is exact: header time at or after genesis, both times
below 2^63, and a difference of at most 9223372036 seconds (above
that, time.Sub saturates at the maximum Duration). -/
lemma secondsSinceGenesis_eq (t g : Nat) (hgt : g ≤ t) (ht : t < 2 ^ 63)
    (hbound : t - g ≤ 9223372036) :
    secondsSinceGenesis t g = t - g := by
  have hU : U64 = 18446744073709551616 := rfl
  have h1 : toInt64 t = (t : Int) := by
    unfold toInt64
    rw [Nat.mod_eq_of_lt (show t < U64 by omega), if_pos ht]
  have h2 : toInt64 g = (g : Int) := by
    unfold toInt64
    rw [Nat.mod_eq_of_lt (show g < U64 by omega)]
    rw [if_pos (show g < 2 ^ 63 by omega)]
  have h3 : durationSub (t : Int) (g : Int) =
      ((t : Int) - (g : Int)) * 1000000000 := by
    simp only [durationSub, maxDuration, minDuration]
    rw [if_neg (by omega), if_neg (by omega)]
  have h4 : uint64OfDurationSeconds (((t : Int) - (g : Int)) * 1000000000) =
      t - g := by
    unfold uint64OfDurationSeconds
    rw [Int.mul_tdiv_cancel _ (by norm_num)]
    have hU64 : ((U64 : Nat) : Int) = (18446744073709551616 : Int) := by
      norm_num [U64]
    rw [hU64]
    omega
  unfold secondsSinceGenesis
  rw [h1, h2, h3, h4]

/-- Claim C4 counterexample: with genesis time 1000 and 12 seconds per
slot, a header timestamp of 20000001000 (t - genesisTime = 2*10^10
seconds) should resolve to slot floor(2*10^10 / 12) = 1666666666
according to the claim; instead time.Sub saturates at the maximum
Duration (9223372036854775807 ns), whose Seconds() converts to
9223372036, and GetHeadState delegates to slot 9223372036 / 12 =
768614336. -/
theorem getHeadState_C4_counterexample :
    GetHeadState mgrA (.ok 20000001000) (fun s => Except.ok s) =
        .ok 768614336 ∧
      (20000001000 - 1000) / 12 = 1666666666 ∧ 768614336 ≠ 1666666666 :=
  ⟨rfl, by norm_num, by norm_num⟩

/-- Claim C4 (amended): for a header timestamp t with
genesisTime ≤ t < 2^63 and t - genesisTime at most 9223372036 seconds
(the bound above which Go time.Sub saturates), and a non-zero
SecondsPerSlot, GetHeadState resolves the target slot as
floor((t - genesisTime) / SecondsPerSlot) and delegates snapshot
construction to that slot; in particular timestamp 1600 with genesis
time 1000 and 12-second slots resolves to slot 50. -/
theorem getHeadState_C4_amended {σ : Type} (m : NetworkStateManager) (t : Nat)
    (createNetworkState : Nat → Except String σ)
    (hsps : m.BeaconConfig.SecondsPerSlot ≠ 0)
    (hgt : m.BeaconConfig.GenesisTime ≤ t) (ht : t < 2 ^ 63)
    (hbound : t - m.BeaconConfig.GenesisTime ≤ 9223372036) :
    GetHeadState m (.ok t) createNetworkState =
      liftExcept (createNetworkState
        ((t - m.BeaconConfig.GenesisTime) / m.BeaconConfig.SecondsPerSlot)) := by
  simp only [GetHeadState]
  rw [if_neg hsps, secondsSinceGenesis_eq t _ hgt ht hbound]

/-- Witness for the amended C4, the end-to-end scenario A of the spec:
genesis time 1000, 12 seconds per slot, header timestamp 1600 resolves
to slot 50. -/
theorem getHeadState_C4_witness :
    GetHeadState mgrA (.ok 1600) (fun s => Except.ok s) = .ok 50 := by
  have h := getHeadState_C4_amended (σ := Nat) mgrA 1600 (fun s => Except.ok s)
    (by decide) (by decide) (by decide) (by decide)
  exact h

/-- Claim C5 counterexample: a header timestamp of 500 is before the
genesis time 1000 of the config, yet GetHeadState does not fail: the
negative elapsed duration is converted to uint64
(implementation-dependent; two's-complement 2^64 - 500 on amd64) and
snapshot construction proceeds at the resulting slot
(2^64 - 500) / 12. -/
theorem getHeadState_C5_counterexample :
    GetHeadState mgrA (.ok 500) (fun s => Except.ok s) =
        .ok 1537228672809129259 ∧
      500 < mgrA.BeaconConfig.GenesisTime :=
  ⟨rfl, by decide⟩

/-- Claim C5 (amended): GetHeadState fails when the execution client is
unreachable (the header fetch error is surfaced, wrapped); but a header
timestamp before the beacon genesis time is not detected — for every
timestamp t, pre-genesis included, GetHeadState simply delegates
snapshot construction to the slot obtained from the uint64 conversion
of the elapsed duration (assuming a non-zero SecondsPerSlot; a zero
one panics). -/
theorem getHeadState_C5_amended {σ : Type} (m : NetworkStateManager)
    (e : String) (t : Nat) (createNetworkState : Nat → Except String σ)
    (hsps : m.BeaconConfig.SecondsPerSlot ≠ 0) :
    GetHeadState m (.error e) createNetworkState =
        .err ("error getting latest EL block: " ++ e) ∧
      GetHeadState m (.ok t) createNetworkState =
        liftExcept (createNetworkState
          (secondsSinceGenesis t m.BeaconConfig.GenesisTime /
            m.BeaconConfig.SecondsPerSlot)) := by
  refine ⟨rfl, ?_⟩
  simp only [GetHeadState]
  rw [if_neg hsps]

/-- Witness for the amended C5: an unreachable execution client yields
the wrapped fetch error, and a pre-genesis timestamp of 500 yields a
normal delegation, not an error. -/
theorem getHeadState_C5_amended_witness :
    GetHeadState mgrA (.error "connection refused") (fun s => Except.ok (s : Nat)) =
        .err "error getting latest EL block: connection refused" ∧
      GetHeadState mgrA (.ok 500) (fun s => Except.ok (s : Nat)) =
        .ok 1537228672809129259 :=
  getHeadState_C5_amended mgrA "connection refused" 500
    (fun s => Except.ok s) (by decide)

/-- Claim C6 counterexample: with SecondsPerEpoch = 0 (and a time at
or after the genesis time, so the claim applies), epochAt is not a
total function returning the claimed value: the Go division by zero
panics, modelled as none. -/
theorem epochAt_C6_counterexample :
    epochAt cfgZeroEpochSec 5 = none ∧ cfgZeroEpochSec.GenesisTime ≤ 5 :=
  ⟨rfl, by decide⟩

/-- Claim C6 (amended): for every Eth2Config c with
c.SecondsPerEpoch ≠ 0 and every uint64 time t with
c.GenesisTime ≤ t, epochAt(c, t) returns
(c.GenesisEpoch + floor((t - c.GenesisTime) / c.SecondsPerEpoch))
reduced modulo 2^64 (the uint64 sum), purely and deterministically;
with SecondsPerEpoch = 0 the Go function panics instead of returning a
value. -/
theorem epochAt_C6_amended (c : Eth2Config) (t : Nat)
    (hspe : c.SecondsPerEpoch ≠ 0) (hgt : c.GenesisTime < U64)
    (ht : t < U64) (hpre : c.GenesisTime ≤ t) :
    epochAt c t =
      some ((c.GenesisEpoch +
        (t - c.GenesisTime) / c.SecondsPerEpoch) % U64) := by
  have hU : U64 = 18446744073709551616 := rfl
  have hsub : u64sub t c.GenesisTime = t - c.GenesisTime := by
    unfold u64sub
    rw [Nat.mod_eq_of_lt ht, Nat.mod_eq_of_lt hgt]
    rw [show t + (U64 - c.GenesisTime) = (t - c.GenesisTime) + U64 by omega,
      Nat.add_mod_right]
    exact Nat.mod_eq_of_lt (by omega)
  unfold epochAt
  rw [if_neg hspe]
  unfold u64add
  rw [hsub]

/-- Witness for the amended C6: genesis time 1000, 384-second epochs,
time 1384 is one epoch after genesis. -/
theorem epochAt_C6_amended_witness : epochAt cfgA 1384 = some 1 := by
  have h := epochAt_C6_amended cfgA 1384 (by decide) (by decide) (by decide)
    (by decide)
  exact h

/-- Claim C9 counterexample: the claim asserts that epochAt never
fails for a pre-genesis time, for every Eth2Config; but with
SecondsPerEpoch = 0 (time 5 before genesis time 10) the Go division by
zero panics, modelled as none. -/
theorem epochAt_C9_counterexample :
    epochAt cfgZeroEpochSecLate 5 = none ∧
      5 < cfgZeroEpochSecLate.GenesisTime :=
  ⟨rfl, by decide⟩

/-- Claim C9 (amended): for every Eth2Config c with
c.SecondsPerEpoch ≠ 0 and every uint64 time t with t < c.GenesisTime,
epochAt does not fail and does not signal a pre-genesis condition: the
uint64 subtraction wraps to 2^64 - (c.GenesisTime - t) and epochAt
returns (c.GenesisEpoch + (2^64 - (c.GenesisTime - t)) /
c.SecondsPerEpoch) reduced modulo 2^64. -/
theorem epochAt_C9_amended (c : Eth2Config) (t : Nat)
    (hspe : c.SecondsPerEpoch ≠ 0) (hgt : c.GenesisTime < U64)
    (ht : t < U64) (hpre : t < c.GenesisTime) :
    epochAt c t =
      some ((c.GenesisEpoch +
        (U64 - (c.GenesisTime - t)) / c.SecondsPerEpoch) % U64) := by
  have hU : U64 = 18446744073709551616 := rfl
  have hsub : u64sub t c.GenesisTime = U64 - (c.GenesisTime - t) := by
    unfold u64sub
    rw [Nat.mod_eq_of_lt ht, Nat.mod_eq_of_lt hgt]
    rw [Nat.mod_eq_of_lt (show t + (U64 - c.GenesisTime) < U64 by omega)]
    omega
  unfold epochAt
  rw [if_neg hspe]
  unfold u64add
  rw [hsub]

/-- Witness for the amended C9: genesis time 1000, time 500 is
pre-genesis; the wrapped subtraction gives 2^64 - 500 and the epoch is
its quotient by 384. -/
theorem epochAt_C9_amended_witness :
    epochAt cfgA 500 = some 48038396025285289 := by
  have h := epochAt_C9_amended cfgA 500 (by decide) (by decide) (by decide)
    (by decide)
  exact h

/-- Claim C7: NewNetworkStateManager performs the config fetch exactly
once at construction time; construction returns an error exactly when
that fetch fails; on success the stored BeaconConfig is the fetched
one, and both GetHeadState and GetLatestFinalizedBeaconBlock are
functions of the stored config only (managers differing in their other
fields behave identically), with no config re-fetch. -/
theorem manager_C7 (network chainID network2 chainID2 : Nat)
    (fetch : Except String Eth2Config) (c : Eth2Config)
    (hok : fetch = .ok c) :
    (NewNetworkStateManager network chainID fetch).1 =
        .ok ⟨network, chainID, c⟩ ∧
      (NewNetworkStateManager network chainID fetch).2 = 1 ∧
      (∀ e, (NewNetworkStateManager network chainID (.error e)).1 =
          .error e ∧
        (NewNetworkStateManager network chainID (.error e)).2 = 1) ∧
      (∀ (getBeaconHead : Except String BeaconHead)
          (probe : Nat → Except String (Nat × Bool)) (fuel : Nat),
        GetLatestFinalizedBeaconBlock ⟨network, chainID, c⟩ getBeaconHead
            probe fuel =
          GetLatestFinalizedBeaconBlock ⟨network2, chainID2, c⟩ getBeaconHead
            probe fuel) ∧
      (∀ (header : Except String Nat) (create : Nat → Except String Nat),
        GetHeadState ⟨network, chainID, c⟩ header create =
          GetHeadState ⟨network2, chainID2, c⟩ header create) := by
  subst hok
  exact ⟨rfl, rfl, fun e => ⟨rfl, rfl⟩, fun h p f => rfl, fun h cr => rfl⟩

/-- Witness for C7: constructing a manager from a successful fetch of
the scenario-A config stores exactly that config and performs one
fetch. -/
theorem manager_C7_witness :
    (NewNetworkStateManager 0 0 (.ok cfgA)).1 = .ok ⟨0, 0, cfgA⟩ ∧
      (NewNetworkStateManager 0 0 (.ok cfgA)).2 = 1 :=
  ⟨(manager_C7 0 0 7 9 (.ok cfgA) cfgA rfl).1,
   (manager_C7 0 0 7 9 (.ok cfgA) cfgA rfl).2.1⟩

/-- Claim C8: OdaoCollector.Collect takes the cached-snapshot path
exactly when the state cache holds a snapshot (GetState non-nil) and
the legacy direct-query path exactly when it does not; the choice
depends only on the presence of the cached snapshot. -/
theorem odaoCollect_C8 (bn pb lrb : Except String Nat) (st : NetworkState) :
    OdaoCollector.Collect none bn pb lrb =
        OdaoCollector.collectImpl_Legacy bn pb lrb ∧
      OdaoCollector.Collect (some st) bn pb lrb =
        OdaoCollector.collectImpl_Atlas st :=
  ⟨rfl, rfl⟩

/-- Claim C10: on both the legacy path and the cached-snapshot path,
the value emitted for the effective-RPL-stake-block gauge always
equals the value emitted for the prices-block gauge (in a failed
legacy collection neither gauge is emitted, so the emitted values
agree in every successful collection). -/
theorem odao_C10 (bn pb lrb : Except String Nat) (st : NetworkState) :
    lookupGauge (OdaoCollector.collectImpl_Legacy bn pb lrb)
          .effectiveRplStakeBlock =
        lookupGauge (OdaoCollector.collectImpl_Legacy bn pb lrb)
          .pricesBlock ∧
      lookupGauge (OdaoCollector.collectImpl_Atlas st)
          .effectiveRplStakeBlock =
        lookupGauge (OdaoCollector.collectImpl_Atlas st) .pricesBlock := by
  constructor
  · cases bn <;> cases pb <;> cases lrb <;> rfl
  · rfl

end Smartnode
